import Mathlib

/-
  Verification development for `src/lib/retrieval/llamaindex_redis.py`
  of the auto-rfp repository: a thin CLI facade over an external
  vector-index library (llama_index) and an external embedding/LLM
  provider (OpenAI).

  Shallow embedding notes.
  * Python exceptions are modelled with `Except String`: each facade
    method has a `_try` body (the code inside the Python `try:` block,
    where external calls may raise) and a wrapper applying the
    `except Exception` clause of the source.
  * The external services (OpenAI embeddings, llama_index index build
    and retrieval) are modelled by an `ExternalEnv` oracle: the index
    build may fail with an exception message, and retrieval over a
    built index may fail or return a list of source nodes.  The built
    index is modelled by the exact list of normalized documents it was
    built from.  The numeric relevance score attached by the external
    retriever is opaque to every claim, so its carrier is an arbitrary
    fixed type (`Score := Int`).
  * Caller-supplied JSON records are modelled by `InputItem`: either a
    mapping with optional fields (a missing key makes `dict.get`
    return the supplied default) or a non-mapping JSON value, on which
    `doc.get(...)` raises `AttributeError`.
-/

namespace AutoRFP

/-- A mapping-shaped input record, as read from the JSON array on stdin.
`none` models an absent key, so that `doc.get(key, default)` yields the
default.  The Python key `section` is spelled `sectionName` here because
`section` is reserved in Lean. -/
structure InputDoc where
  content : Option String
  id : Option String
  source : Option String
  sectionName : Option String
  pageNumber : Option Int
deriving Repr, DecidableEq

/-- An element of the JSON array handed to `index_documents`: either a
mapping (a JSON object) or a non-mapping JSON value (string, number, ...)
carrying its textual form; calling `.get` on the latter raises
`AttributeError` in Python. -/
inductive InputItem where
  | mapping (d : InputDoc)
  | nonMapping (descr : String)
deriving Repr, DecidableEq

/-- The normalized metadata attached to a llama_index `Document` by
`index_documents` (source lines 53-58). -/
structure Metadata where
  id : String
  source : String
  sectionName : String
  pageNumber : Int
deriving Repr, DecidableEq

/-- A llama_index `Document`: the normalized shape produced from each
input record. -/
structure LlamaDoc where
  text : String
  metadata : Metadata
deriving Repr, DecidableEq

/-- The opaque relevance score attached to a retrieved node by the
external service; no claim concerns its numeric value. -/
abbrev Score := Int

/-- A source node of a query response (`response.source_nodes` element):
text, optional score, and the metadata of the document it came from. -/
structure SourceNode where
  text : String
  score : Option Score
  metadata : Metadata
deriving Repr, DecidableEq

/-- A search result dict as assembled in `search` (source lines 88-93). -/
structure SearchResult where
  id : String
  content : String
  score : Option Score
  metadata : Metadata
deriving Repr, DecidableEq

/-- `Document(text=doc.get('content',''), metadata={...})`: normalization
of one mapping record, with the defaults of the source (lines 50-59). -/
def normalizeDoc (doc : InputDoc) : LlamaDoc :=
  { text := doc.content.getD ""
    metadata :=
      { id := doc.id.getD ""
        source := doc.source.getD ""
        sectionName := doc.sectionName.getD ""
        pageNumber := doc.pageNumber.getD 0 } }

/-- The conversion loop of `index_documents` (lines 48-61): normalizes
each record in order; a non-mapping record raises `AttributeError` at
its `doc.get('content', '')` call, aborting the loop. -/
def toLlamaDocs : List InputItem → Except String (List LlamaDoc)
  | [] => .ok []
  | InputItem.mapping d :: rest => (toLlamaDocs rest).map (fun l => normalizeDoc d :: l)
  | InputItem.nonMapping descr :: _ =>
      .error ("AttributeError: " ++ descr ++ " object has no attribute get")

/-- The external services oracle.  `buildIndexErr docs` is `some msg`
when `VectorStoreIndex.from_documents` raises (embedding/auth/network
failure) and `none` when it succeeds, in which case the built index is
exactly `docs`.  `retrieve docs query top_k` models
`index.as_query_engine(similarity_top_k=top_k, llm=...).query(query)`
followed by `.source_nodes`: it may raise, or return source nodes. -/
structure ExternalEnv where
  buildIndexErr : List LlamaDoc → Option String
  retrieve : List LlamaDoc → String → Nat → Except String (List SourceNode)

/-- The facade instance (`class LlamaIndexRedisRetrieval`).  The
`vector_store` handle is modelled as `Option Unit` (present/absent);
the built `index` as the list of documents it was built over. -/
structure LlamaIndexRedisRetrieval where
  redis_url : String
  index_name : String
  vector_store : Option Unit
  index : Option (List LlamaDoc)
deriving Repr, DecidableEq

/-- `not openai_key` in Python: true when the variable is unset (`none`)
or set to the empty string. -/
def keyFalsy : Option String → Bool
  | none => true
  | some s => s.isEmpty

/-- The constructor (`__init__`, lines 18-31): raises `ValueError` when
the API key is falsy, otherwise yields the initial state with no vector
store handle and no index. -/
def init (openai_key : Option String) (redis_url : String) (index_name : String) :
    Except String LlamaIndexRedisRetrieval :=
  if keyFalsy openai_key then
    Except.error "OPENAI_API_KEY environment variable not set"
  else
    Except.ok { redis_url := redis_url, index_name := index_name,
                vector_store := none, index := none }

/-- The body of `connect`'s `try:` block (lines 33-40): prints a log
line, sets `vector_store` to `None`, returns `True`; nothing in it can
raise. -/
def connect_try (st : LlamaIndexRedisRetrieval) :
    Except String (Bool × LlamaIndexRedisRetrieval) :=
  Except.ok (true, { st with vector_store := none })

/-- `connect` (lines 33-43): the `except` clause would return `False`,
but the body never raises. -/
def connect (st : LlamaIndexRedisRetrieval) : Bool × LlamaIndexRedisRetrieval :=
  match connect_try st with
  | Except.ok r => r
  | Except.error _ => (false, st)

/-- The body of `index_documents`'s `try:` block (lines 45-68):
normalize all records (may raise `AttributeError`), then build the
index externally (may raise); on success assign `self.index` and return
`True`. -/
def index_documents_try (env : ExternalEnv) (st : LlamaIndexRedisRetrieval)
    (documents : List InputItem) :
    Except String (Bool × LlamaIndexRedisRetrieval) :=
  match toLlamaDocs documents with
  | Except.error e => Except.error e
  | Except.ok llama_docs =>
    match env.buildIndexErr llama_docs with
    | some e => Except.error e
    | none => Except.ok (true, { st with index := some llama_docs })

/-- `index_documents` (lines 45-71): any exception is caught, logged,
and turned into `False` with the state unchanged (`self.index` is only
assigned after `from_documents` returned). -/
def index_documents (env : ExternalEnv) (st : LlamaIndexRedisRetrieval)
    (documents : List InputItem) : Bool × LlamaIndexRedisRetrieval :=
  match index_documents_try env st documents with
  | Except.ok r => r
  | Except.error _ => (false, st)

/-- `'id': node.metadata.get('id', '')` and friends (lines 88-93): the
normalized metadata always carries an `id`, so the `get` default is
never used. -/
def nodeToResult (node : SourceNode) : SearchResult :=
  { id := node.metadata.id
    content := node.text
    score := node.score
    metadata := node.metadata }

/-- The body of `search`'s `try:` block (lines 76-96): with no index,
return `[]` without touching any external service; otherwise query the
external engine (may raise) and map each source node to a result dict. -/
def search_try (env : ExternalEnv) (st : LlamaIndexRedisRetrieval)
    (query : String) (top_k : Nat) : Except String (List SearchResult) :=
  match st.index with
  | none => Except.ok []
  | some docs =>
    match env.retrieve docs query top_k with
    | Except.error e => Except.error e
    | Except.ok nodes => Except.ok (nodes.map nodeToResult)

/-- `search` (lines 74-99): any exception is caught, logged, and turned
into an empty list.  The state is never modified. -/
def search (env : ExternalEnv) (st : LlamaIndexRedisRetrieval)
    (query : String) (top_k : Nat) : List SearchResult :=
  match search_try env st query top_k with
  | Except.ok r => r
  | Except.error _ => []

/-- The value printed by `get_stats` (lines 101-112). -/
inductive StatsResult where
  | err (message : String)
  | info (status : String) (index_name : String) (redis_url : String)
deriving Repr, DecidableEq

/-- `get_stats` (lines 101-112): `{"error": "Not connected"}` when no
vector store handle is present, otherwise the status mapping; nothing
in the body can raise. -/
def get_stats (st : LlamaIndexRedisRetrieval) : StatsResult :=
  match st.vector_store with
  | none => StatsResult.err "Not connected"
  | some _ => StatsResult.info "connected" st.index_name st.redis_url

/-- One facade operation, for reasoning about call sequences within a
process lifetime. -/
inductive Op where
  | connectOp
  | indexOp (documents : List InputItem)
  | searchOp (query : String) (top_k : Nat)
  | statsOp

/-- State transition of one operation (`search` and `get_stats` do not
modify the instance). -/
def runOp (env : ExternalEnv) (st : LlamaIndexRedisRetrieval) : Op → LlamaIndexRedisRetrieval
  | Op.connectOp => (connect st).2
  | Op.indexOp documents => (index_documents env st documents).2
  | Op.searchOp _ _ => st
  | Op.statsOp => st

/-- State after running a sequence of operations. -/
def runOps (env : ExternalEnv) (st : LlamaIndexRedisRetrieval) :
    List Op → LlamaIndexRedisRetrieval
  | [] => st
  | op :: rest => runOps env (runOp env st op) rest

/-- Whether an operation is an `index_documents` call that returns
`True` from the given state. -/
def opIndexSucceeds (env : ExternalEnv) (st : LlamaIndexRedisRetrieval) : Op → Bool
  | Op.indexOp documents => (index_documents env st documents).1
  | _ => false

/-- Whether some `index_documents` call in the sequence returns `True`. -/
def traceIndexSucceeds (env : ExternalEnv) :
    LlamaIndexRedisRetrieval → List Op → Bool
  | _, [] => false
  | st, op :: rest =>
      opIndexSucceeds env st op || traceIndexSucceeds env (runOp env st op) rest

/-- What `json.loads(sys.stdin.read())` yields in the `index` command
path of `main` (line 129): a parsed JSON array, or a raised
`JSONDecodeError` carrying its message. -/
inductive StdinData where
  | parsed (items : List InputItem)
  | invalid (message : String)
deriving Repr, DecidableEq

/-- The JSON printed (or exit taken) by one CLI invocation of `main`. -/
inductive CliOutput where
  | usageExit (code : Nat)
  | connectOut (success : Bool)
  | indexOut (success : Bool)
  | searchOut (results : List SearchResult)
  | statsOut (stats : StatsResult)
  | unknownOut (command : String)
deriving Repr, DecidableEq

/-- `main` (lines 114-146).  `argv` includes the program name at index
0.  An `Except.error` result is an exception escaping to terminate the
process: the `ValueError` from construction, or the `JSONDecodeError`
from the bare `json.loads` call of the `index` path, which sits outside
every `try:` block. -/
def main (env : ExternalEnv) (openai_key : Option String) (argv : List String)
    (stdin : StdinData) : Except String CliOutput :=
  if argv.length < 2 then Except.ok (CliOutput.usageExit 1)
  else
    match init openai_key "redis://localhost:6379" "rfp_context" with
    | Except.error e => Except.error e
    | Except.ok retrieval =>
      let command := argv.getD 1 ""
      if command = "connect" then
        Except.ok (CliOutput.connectOut (connect retrieval).1)
      else if command = "index" then
        match stdin with
        | StdinData.invalid e => Except.error e
        | StdinData.parsed documents =>
            Except.ok (CliOutput.indexOut (index_documents env retrieval documents).1)
      else if command = "search" then
        if argv.length < 3 then Except.ok (CliOutput.usageExit 1)
        else Except.ok (CliOutput.searchOut (search env retrieval (argv.getD 2 "") 5))
      else if command = "stats" then
        Except.ok (CliOutput.statsOut (get_stats retrieval))
      else Except.ok (CliOutput.unknownOut command)

/-- The contract the external retriever honours on success: at most
`top_k` source nodes, drawn from the nodes of the documents the index
was built over (at most one node per document: the demo documents fit a
single chunk each). -/
def RetrieveContract (env : ExternalEnv) : Prop :=
  ∀ docs query top_k nodes, env.retrieve docs query top_k = Except.ok nodes →
    nodes.length ≤ top_k ∧ nodes.length ≤ docs.length ∧
    ∀ node ∈ nodes, ∃ d ∈ docs, node.text = d.text ∧ node.metadata = d.metadata

/-- A concrete well-behaved environment: the build always succeeds and
retrieval returns the first `top_k` document nodes with score 0. -/
def envOk : ExternalEnv :=
  { buildIndexErr := fun _ => none
    retrieve := fun docs _ top_k =>
      Except.ok ((docs.map (fun d => { text := d.text, score := some 0, metadata := d.metadata })).take top_k) }

/-- A concrete always-failing environment: both external calls raise. -/
def envFail : ExternalEnv :=
  { buildIndexErr := fun _ => some "APIError"
    retrieve := fun _ _ _ => Except.error "APIError" }

/-- Records that survive the normalization loop: the mapping payloads,
in order. -/
def mappingItems : List InputItem → List InputDoc
  | [] => []
  | InputItem.mapping d :: rest => d :: mappingItems rest
  | InputItem.nonMapping _ :: rest => mappingItems rest

theorem toLlamaDocs_length (items : List InputItem) (l : List LlamaDoc)
    (h : toLlamaDocs items = Except.ok l) : l.length = items.length := by
  induction items generalizing l with
  | nil =>
    simp only [toLlamaDocs] at h
    cases h
    rfl
  | cons head tail ih =>
    cases head with
    | mapping d =>
      simp only [toLlamaDocs] at h
      cases htail : toLlamaDocs tail with
      | error e => rw [htail] at h; simp [Except.map] at h
      | ok l0 =>
        rw [htail] at h
        simp only [Except.map] at h
        cases h
        simp [ih l0 htail]
    | nonMapping descr => simp [toLlamaDocs] at h

theorem toLlamaDocs_mem (items : List InputItem) (l : List LlamaDoc)
    (h : toLlamaDocs items = Except.ok l) :
    ∀ x ∈ l, ∃ d, InputItem.mapping d ∈ items ∧ x = normalizeDoc d := by
  induction items generalizing l with
  | nil =>
    simp only [toLlamaDocs] at h
    cases h
    intro x hx
    simp at hx
  | cons head tail ih =>
    cases head with
    | mapping d =>
      simp only [toLlamaDocs] at h
      cases htail : toLlamaDocs tail with
      | error e => rw [htail] at h; simp [Except.map] at h
      | ok l0 =>
        rw [htail] at h
        simp only [Except.map] at h
        cases h
        intro x hx
        rcases List.mem_cons.mp hx with hx | hx
        · exact ⟨d, List.mem_cons_self _ _, hx⟩
        · rcases ih l0 htail x hx with ⟨d0, hd0, hxd0⟩
          exact ⟨d0, List.mem_cons_of_mem _ hd0, hxd0⟩
    | nonMapping descr => simp [toLlamaDocs] at h

theorem toLlamaDocs_all_mapping (items : List InputItem)
    (h : ∀ i ∈ items, ∃ d, i = InputItem.mapping d) :
    toLlamaDocs items = Except.ok ((mappingItems items).map normalizeDoc) := by
  induction items with
  | nil => rfl
  | cons head tail ih =>
    cases head with
    | mapping d =>
      have htail := ih (fun i hi => h i (List.mem_cons_of_mem _ hi))
      simp [toLlamaDocs, htail, Except.map, mappingItems]
    | nonMapping descr =>
      rcases h _ (List.mem_cons_self _ _) with ⟨d, hd⟩
      cases hd

theorem toLlamaDocs_error_of_nonMapping (items : List InputItem) (s : String)
    (h : InputItem.nonMapping s ∈ items) :
    ∃ e, toLlamaDocs items = Except.error e := by
  induction items with
  | nil => simp at h
  | cons head tail ih =>
    cases head with
    | mapping d =>
      rcases List.mem_cons.mp h with hh | hh
      · cases hh
      · rcases ih hh with ⟨e, he⟩
        exact ⟨e, by simp [toLlamaDocs, he, Except.map]⟩
    | nonMapping descr => exact ⟨_, rfl⟩

theorem index_documents_cases (env : ExternalEnv) (st : LlamaIndexRedisRetrieval)
    (documents : List InputItem) :
    index_documents env st documents = (false, st) ∨
    ∃ l, toLlamaDocs documents = Except.ok l ∧ env.buildIndexErr l = none ∧
      index_documents env st documents = (true, { st with index := some l }) := by
  cases h1 : toLlamaDocs documents with
  | error e => left; simp [index_documents, index_documents_try, h1]
  | ok l =>
    cases h2 : env.buildIndexErr l with
    | none => right; exact ⟨l, rfl, h2, by simp [index_documents, index_documents_try, h1, h2]⟩
    | some e => left; simp [index_documents, index_documents_try, h1, h2]

theorem index_documents_success (env : ExternalEnv) (st st2 : LlamaIndexRedisRetrieval)
    (documents : List InputItem)
    (h : index_documents env st documents = (true, st2)) :
    ∃ l, toLlamaDocs documents = Except.ok l ∧ env.buildIndexErr l = none ∧
      st2 = { st with index := some l } := by
  rcases index_documents_cases env st documents with hc | ⟨l, h1, h2, hc⟩
  · rw [hc] at h; cases h
  · rw [hc] at h
    exact ⟨l, h1, h2, (Prod.mk.injEq _ _ _ _).mp h |>.2.symm⟩

theorem index_documents_vector_store (env : ExternalEnv)
    (st : LlamaIndexRedisRetrieval) (documents : List InputItem) :
    (index_documents env st documents).2.vector_store = st.vector_store := by
  rcases index_documents_cases env st documents with hc | ⟨l, _, _, hc⟩ <;> rw [hc]

theorem index_documents_fst_congr (env : ExternalEnv)
    (st st' : LlamaIndexRedisRetrieval) (documents : List InputItem) :
    (index_documents env st documents).1 = (index_documents env st' documents).1 := by
  cases h1 : toLlamaDocs documents with
  | error e => simp [index_documents, index_documents_try, h1]
  | ok l =>
    cases h2 : env.buildIndexErr l with
    | none => simp [index_documents, index_documents_try, h1, h2]
    | some e => simp [index_documents, index_documents_try, h1, h2]

theorem index_documents_not_success (env : ExternalEnv)
    (st : LlamaIndexRedisRetrieval) (documents : List InputItem)
    (h : (index_documents env st documents).1 = false) :
    index_documents env st documents = (false, st) := by
  rcases index_documents_cases env st documents with hc | ⟨l, _, _, hc⟩
  · exact hc
  · rw [hc] at h; cases h

theorem runOp_vector_store_none (env : ExternalEnv) (st : LlamaIndexRedisRetrieval)
    (op : Op) (h : st.vector_store = none) : (runOp env st op).vector_store = none := by
  cases op with
  | connectOp => rfl
  | indexOp documents => rw [runOp, index_documents_vector_store]; exact h
  | searchOp q k => exact h
  | statsOp => exact h

theorem runOps_vector_store_none (env : ExternalEnv) (st : LlamaIndexRedisRetrieval)
    (ops : List Op) (h : st.vector_store = none) :
    (runOps env st ops).vector_store = none := by
  induction ops generalizing st with
  | nil => exact h
  | cons op rest ih => exact ih _ (runOp_vector_store_none env st op h)

theorem runOp_index_of_no_success (env : ExternalEnv) (st : LlamaIndexRedisRetrieval)
    (op : Op) (h : opIndexSucceeds env st op = false) :
    (runOp env st op).index = st.index := by
  cases op with
  | connectOp => rfl
  | indexOp documents =>
    rw [runOp, index_documents_not_success env st documents h]
  | searchOp q k => rfl
  | statsOp => rfl

theorem runOps_index_of_no_success (env : ExternalEnv) (st : LlamaIndexRedisRetrieval)
    (ops : List Op) (h : traceIndexSucceeds env st ops = false) :
    (runOps env st ops).index = st.index := by
  induction ops generalizing st with
  | nil => rfl
  | cons op rest ih =>
    rw [traceIndexSucceeds, Bool.or_eq_false_iff] at h
    rw [runOps, ih _ h.2, runOp_index_of_no_success env st op h.1]

theorem search_congr (env : ExternalEnv) (st st' : LlamaIndexRedisRetrieval)
    (query : String) (top_k : Nat) (h : st.index = st'.index) :
    search env st query top_k = search env st' query top_k := by
  simp only [search, search_try, h]

/-- Claim C1: in every process state reached from construction by a
sequence of operations containing no successful `index_documents` call,
`search` returns an empty list for every query string and every
`top_k`, and its `try:` body signals no error at all (it short-circuits
on the absent index before any external call). -/
theorem C1_search_empty_without_index (env : ExternalEnv) (openai_key : Option String)
    (redis_url : String) (index_name : String) (st0 : LlamaIndexRedisRetrieval)
    (ops : List Op) (query : String) (top_k : Nat)
    (hinit : init openai_key redis_url index_name = Except.ok st0)
    (hno : traceIndexSucceeds env st0 ops = false) :
    search_try env (runOps env st0 ops) query top_k = Except.ok [] ∧
    search env (runOps env st0 ops) query top_k = [] := by
  have h0 : st0.index = none := by
    unfold init at hinit
    split at hinit
    · cases hinit
    · cases hinit; rfl
  have hidx : (runOps env st0 ops).index = none := by
    rw [runOps_index_of_no_success env st0 ops hno, h0]
  exact ⟨by simp [search_try, hidx], by simp [search, search_try, hidx]⟩

/-- Witness for C1 at a concrete fresh state, empty trace, query
"query", top_k 5. -/
theorem C1_search_empty_without_index_witness :
    search envOk ⟨"redis://localhost:6379", "rfp_context", none, none⟩ "query" 5 = [] :=
  (C1_search_empty_without_index envOk (some "sk-test") "redis://localhost:6379"
    "rfp_context" ⟨"redis://localhost:6379", "rfp_context", none, none⟩ [] "query" 5
    rfl rfl).2

/-- Claim C7: with the API-key environment variable unset and a command
present on the command line, `main` raises the construction
`ValueError` before any command is dispatched: the process result is
the escaping error, not any command output. -/
theorem C7_missing_key_aborts (env : ExternalEnv) (argv : List String)
    (stdin : StdinData) (hargs : 2 ≤ argv.length) :
    main env none argv stdin = Except.error "OPENAI_API_KEY environment variable not set" := by
  unfold main
  rw [if_neg (by omega)]
  rfl

/-- Witness for C7 with the `stats` command. -/
theorem C7_missing_key_aborts_witness :
    main envOk none ["llamaindex_redis.py", "stats"] (StdinData.parsed []) =
      Except.error "OPENAI_API_KEY environment variable not set" :=
  C7_missing_key_aborts envOk ["llamaindex_redis.py", "stats"] (StdinData.parsed [])
    (by simp)

/-- Claim C8: `get_stats` answers `{"error": "Not connected"}` whenever
no vector store handle is present, and the handle is absent after every
operation sequence from construction (`connect` itself sets it to
`None`), so `get_stats` always answers `{"error": "Not connected"}`. -/
theorem C8_stats_always_not_connected (env : ExternalEnv) (openai_key : Option String)
    (redis_url : String) (index_name : String) (st0 : LlamaIndexRedisRetrieval)
    (ops : List Op)
    (hinit : init openai_key redis_url index_name = Except.ok st0) :
    get_stats (runOps env st0 ops) = StatsResult.err "Not connected" ∧
    ∀ st : LlamaIndexRedisRetrieval, st.vector_store = none →
      get_stats st = StatsResult.err "Not connected" := by
  have h0 : st0.vector_store = none := by
    unfold init at hinit
    split at hinit
    · cases hinit
    · cases hinit; rfl
  refine ⟨?_, fun st h => by simp [get_stats, h]⟩
  have hvs := runOps_vector_store_none env st0 ops h0
  simp [get_stats, hvs]

/-- Witness for C8 after the trace connect, index, search, stats. -/
theorem C8_stats_always_not_connected_witness :
    get_stats (runOps envOk ⟨"redis://localhost:6379", "rfp_context", none, none⟩
      [Op.connectOp, Op.indexOp [], Op.searchOp "q" 5, Op.statsOp]) =
      StatsResult.err "Not connected" :=
  (C8_stats_always_not_connected envOk (some "sk-test") "redis://localhost:6379"
    "rfp_context" ⟨"redis://localhost:6379", "rfp_context", none, none⟩
    [Op.connectOp, Op.indexOp [], Op.searchOp "q" 5, Op.statsOp] rfl).1

/-- Claim C9: `connect` returns `True` from every state, sets
`vector_store` to `None` (in-memory mode), leaves the index and the
configuration fields unchanged, and keeps returning `True` on repeated
calls. -/
theorem C9_connect_always_true (st : LlamaIndexRedisRetrieval) :
    connect st = (true, { st with vector_store := none }) ∧
    (connect st).2.index = st.index ∧
    (connect st).2.redis_url = st.redis_url ∧
    (connect st).2.index_name = st.index_name ∧
    (connect (connect st).2).1 = true :=
  ⟨rfl, rfl, rfl, rfl, rfl⟩

/-- Claim C10: a non-mapping element anywhere in the input array makes
`index_documents` return `False` with the state unchanged: the
`AttributeError` is raised inside the conversion loop, caught by the
`except` clause, and `self.index` — assigned only after the loop — is
untouched. -/
theorem C10_nonmapping_fails_closed (env : ExternalEnv) (st : LlamaIndexRedisRetrieval)
    (documents : List InputItem) (s : String)
    (hmem : InputItem.nonMapping s ∈ documents) :
    index_documents env st documents = (false, st) ∧
    (∃ e, index_documents_try env st documents = Except.error e) ∧
    (index_documents env st documents).2.index = st.index := by
  rcases toLlamaDocs_error_of_nonMapping documents s hmem with ⟨e, he⟩
  refine ⟨?_, ⟨e, ?_⟩, ?_⟩
  · simp [index_documents, index_documents_try, he]
  · simp [index_documents_try, he]
  · simp [index_documents, index_documents_try, he]

/-- Witness for C10: a JSON array holding one mapping and one bare
string. -/
theorem C10_nonmapping_fails_closed_witness :
    index_documents envOk ⟨"redis://localhost:6379", "rfp_context", none, none⟩
      [InputItem.mapping ⟨some "text", some "d1", none, none, none⟩,
       InputItem.nonMapping "str"] =
    (false, ⟨"redis://localhost:6379", "rfp_context", none, none⟩) :=
  (C10_nonmapping_fails_closed envOk ⟨"redis://localhost:6379", "rfp_context", none, none⟩
    [InputItem.mapping ⟨some "text", some "d1", none, none, none⟩,
     InputItem.nonMapping "str"] "str" (by simp)).1

/-- Claim C3: after a successful `index_documents` call over N input
records, and any further operations none of which is another
successful `index_documents`, a `search` with `top_k = k` returns at
most k and at most N results, granted the external retriever honours
its contract. -/
theorem C3_search_length_bounds (env : ExternalEnv)
    (st st2 : LlamaIndexRedisRetrieval) (documents : List InputItem)
    (ops : List Op) (query : String) (top_k : Nat)
    (hc : RetrieveContract env)
    (hidx : index_documents env st documents = (true, st2))
    (hno : traceIndexSucceeds env st2 ops = false) :
    (search env (runOps env st2 ops) query top_k).length ≤ top_k ∧
    (search env (runOps env st2 ops) query top_k).length ≤ documents.length := by
  rcases index_documents_success env st st2 documents hidx with ⟨l, hl, hb, hst2⟩
  have hlen : l.length = documents.length := toLlamaDocs_length documents l hl
  have hidx2 : (runOps env st2 ops).index = some l := by
    rw [runOps_index_of_no_success env st2 ops hno, hst2]
  cases hr : env.retrieve l query top_k with
  | error e =>
    have hes : search env (runOps env st2 ops) query top_k = [] := by
      simp [search, search_try, hidx2, hr]
    simp [hes]
  | ok nodes =>
    have hsearch : search env (runOps env st2 ops) query top_k = nodes.map nodeToResult := by
      simp [search, search_try, hidx2, hr]
    rcases hc l query top_k nodes hr with ⟨hk, hN, _⟩
    rw [hsearch, List.length_map]
    exact ⟨hk, hlen ▸ hN⟩

/-- Witness for C3: two documents indexed, searched with top_k 1. -/
theorem C3_search_length_bounds_witness :
    (search envOk ⟨"redis://localhost:6379", "rfp_context", none,
        some [normalizeDoc ⟨some "a", some "1", none, none, none⟩,
              normalizeDoc ⟨some "b", some "2", none, none, none⟩]⟩ "q" 1).length ≤ 1 :=
  (C3_search_length_bounds envOk
    ⟨"redis://localhost:6379", "rfp_context", none, none⟩
    ⟨"redis://localhost:6379", "rfp_context", none,
      some [normalizeDoc ⟨some "a", some "1", none, none, none⟩,
            normalizeDoc ⟨some "b", some "2", none, none, none⟩]⟩
    [InputItem.mapping ⟨some "a", some "1", none, none, none⟩,
     InputItem.mapping ⟨some "b", some "2", none, none, none⟩]
    [] "q" 1
    (by
      intro docs query top_k nodes h
      injection h with h
      subst h
      refine ⟨?_, ?_, ?_⟩
      · rw [List.length_take]; exact min_le_left _ _
      · rw [List.length_take, List.length_map]; exact min_le_right _ _
      · intro node hnode
        have hmem := List.mem_of_mem_take hnode
        rcases List.mem_map.mp hmem with ⟨d, hd, hnd⟩
        exact ⟨d, hd, by rw [← hnd], by rw [← hnd]⟩)
    rfl rfl).1

/-- Claim C4: granted the retriever contract, every result of a search
run after a successful `index_documents` call (with no later successful
`index_documents`) carries the `id` and the metadata of some record of
that most recently indexed batch, as normalized at indexing time. -/
theorem C4_results_from_batch (env : ExternalEnv)
    (st st2 : LlamaIndexRedisRetrieval) (documents : List InputItem)
    (ops : List Op) (query : String) (top_k : Nat)
    (hc : RetrieveContract env)
    (hidx : index_documents env st documents = (true, st2))
    (hno : traceIndexSucceeds env st2 ops = false) :
    ∀ r ∈ search env (runOps env st2 ops) query top_k,
      ∃ d, InputItem.mapping d ∈ documents ∧
        r.id = (normalizeDoc d).metadata.id ∧
        r.metadata = (normalizeDoc d).metadata := by
  rcases index_documents_success env st st2 documents hidx with ⟨l, hl, hb, hst2⟩
  have hidx2 : (runOps env st2 ops).index = some l := by
    rw [runOps_index_of_no_success env st2 ops hno, hst2]
  intro r hr
  cases hret : env.retrieve l query top_k with
  | error e =>
    rw [show search env (runOps env st2 ops) query top_k = [] from by
      simp [search, search_try, hidx2, hret]] at hr
    simp at hr
  | ok nodes =>
    rw [show search env (runOps env st2 ops) query top_k = nodes.map nodeToResult from by
      simp [search, search_try, hidx2, hret]] at hr
    rcases List.mem_map.mp hr with ⟨node, hnode, hrnode⟩
    rcases (hc l query top_k nodes hret).2.2 node hnode with ⟨x, hx, htext, hmeta⟩
    rcases toLlamaDocs_mem documents l hl x hx with ⟨d, hd, hxd⟩
    exact ⟨d, hd, by rw [← hrnode]; simp [nodeToResult, hmeta, hxd],
           by rw [← hrnode]; simp [nodeToResult, hmeta, hxd]⟩

/-- Witness for C4: one indexed document, the single result matches it. -/
theorem C4_results_from_batch_witness :
    ∃ d, InputItem.mapping d ∈ [InputItem.mapping
        (⟨some "a", some "1", none, none, none⟩ : InputDoc)] ∧
      ({ id := "1", content := "a", score := some 0,
         metadata := { id := "1", source := "", sectionName := "", pageNumber := 0 } }
         : SearchResult).id = (normalizeDoc d).metadata.id ∧
      ({ id := "1", content := "a", score := some 0,
         metadata := { id := "1", source := "", sectionName := "", pageNumber := 0 } }
         : SearchResult).metadata = (normalizeDoc d).metadata :=
  C4_results_from_batch envOk
    ⟨"redis://localhost:6379", "rfp_context", none, none⟩
    ⟨"redis://localhost:6379", "rfp_context", none,
      some [normalizeDoc ⟨some "a", some "1", none, none, none⟩]⟩
    [InputItem.mapping ⟨some "a", some "1", none, none, none⟩]
    [] "q" 5
    (by
      intro docs query top_k nodes h
      injection h with h
      subst h
      refine ⟨by rw [List.length_take]; exact min_le_left _ _,
              by rw [List.length_take, List.length_map]; exact min_le_right _ _, ?_⟩
      intro node hnode
      rcases List.mem_map.mp (List.mem_of_mem_take hnode) with ⟨d, hd, hnd⟩
      exact ⟨d, hd, by rw [← hnd], by rw [← hnd]⟩)
    rfl rfl
    { id := "1", content := "a", score := some 0,
      metadata := { id := "1", source := "", sectionName := "", pageNumber := 0 } }
    (by decide)

/-- Claim C5: a second successful `index_documents` call replaces the
previous index outright: the resulting index equals the one a fresh
facade gets from indexing the same batch, and every subsequent search
behaves identically on the two. -/
theorem C5_index_replaced_not_merged (env : ExternalEnv)
    (openai_key : Option String) (redis_url : String) (index_name : String)
    (st0 stf st1 : LlamaIndexRedisRetrieval) (ds1 ds2 : List InputItem)
    (_hfresh : init openai_key redis_url index_name = Except.ok stf)
    (_h1 : index_documents env st0 ds1 = (true, st1))
    (h2 : (index_documents env st1 ds2).1 = true) :
    (index_documents env st1 ds2).2.index = (index_documents env stf ds2).2.index ∧
    ∀ query top_k,
      search env (index_documents env st1 ds2).2 query top_k =
      search env (index_documents env stf ds2).2 query top_k := by
  rcases index_documents_cases env st1 ds2 with hc | ⟨l, hl, hb, hc⟩
  · rw [hc] at h2; cases h2
  · rcases index_documents_cases env stf ds2 with hc' | ⟨l', hl', hb', hc'⟩
    · have hcong := index_documents_fst_congr env st1 stf ds2
      rw [hc, hc'] at hcong
      cases hcong
    · have hll' : l = l' := by rw [hl] at hl'; cases hl'; rfl
      subst hll'
      rw [hc, hc']
      exact ⟨rfl, fun query top_k => search_congr env _ _ query top_k rfl⟩

/-- Witness for C5: index batch [a], then batch [b], against a fresh
facade indexing [b]. -/
theorem C5_index_replaced_not_merged_witness :
    (index_documents envOk
      (index_documents envOk ⟨"redis://localhost:6379", "rfp_context", none, none⟩
        [InputItem.mapping ⟨some "a", some "1", none, none, none⟩]).2
      [InputItem.mapping ⟨some "b", some "2", none, none, none⟩]).2.index =
    (index_documents envOk ⟨"redis://localhost:6379", "rfp_context", none, none⟩
      [InputItem.mapping ⟨some "b", some "2", none, none, none⟩]).2.index :=
  (C5_index_replaced_not_merged envOk (some "sk-test") "redis://localhost:6379"
    "rfp_context" ⟨"redis://localhost:6379", "rfp_context", none, none⟩
    ⟨"redis://localhost:6379", "rfp_context", none, none⟩
    (index_documents envOk ⟨"redis://localhost:6379", "rfp_context", none, none⟩
      [InputItem.mapping ⟨some "a", some "1", none, none, none⟩]).2
    [InputItem.mapping ⟨some "a", some "1", none, none, none⟩]
    [InputItem.mapping ⟨some "b", some "2", none, none, none⟩]
    rfl rfl rfl).1

/-- Claim C6: a batch made only of mapping records never raises in
`index_documents`: each missing field is coerced to its default (empty
string, page number 0), and when the external build step succeeds the
call returns `True` with the index set to the normalized batch. -/
theorem C6_missing_fields_defaulted (env : ExternalEnv)
    (st : LlamaIndexRedisRetrieval) (documents : List InputItem)
    (hall : ∀ i ∈ documents, ∃ d, i = InputItem.mapping d)
    (hbuild : env.buildIndexErr ((mappingItems documents).map normalizeDoc) = none) :
    index_documents_try env st documents =
      Except.ok (true, { st with index := some ((mappingItems documents).map normalizeDoc) }) ∧
    index_documents env st documents =
      (true, { st with index := some ((mappingItems documents).map normalizeDoc) }) ∧
    normalizeDoc ⟨none, none, none, none, none⟩ =
      { text := "", metadata := { id := "", source := "", sectionName := "", pageNumber := 0 } } := by
  have h1 := toLlamaDocs_all_mapping documents hall
  exact ⟨by simp [index_documents_try, h1, hbuild],
         by simp [index_documents, index_documents_try, h1, hbuild], rfl⟩

/-- Witness for C6: one record with every field missing. -/
theorem C6_missing_fields_defaulted_witness :
    index_documents envOk ⟨"redis://localhost:6379", "rfp_context", none, none⟩
      [InputItem.mapping ⟨none, none, none, none, none⟩] =
    (true, ⟨"redis://localhost:6379", "rfp_context", none,
      some [normalizeDoc ⟨none, none, none, none, none⟩]⟩) :=
  (C6_missing_fields_defaulted envOk
    ⟨"redis://localhost:6379", "rfp_context", none, none⟩
    [InputItem.mapping ⟨none, none, none, none, none⟩]
    (by intro i hi; rw [List.mem_singleton] at hi; exact ⟨_, hi⟩)
    rfl).2.1

/-- Claim C2 counterexample: with the API key present, the `index`
command path lets an exception escape and terminate the process —
`json.loads(sys.stdin.read())` runs in `main` outside every `try:`
block, so malformed JSON on standard input raises an uncaught
`JSONDecodeError`, contradicting the claim that every post-construction
failure on every command path is caught and converted to a benign
result. -/
theorem C2_json_escape_counterexample :
    main envOk (some "sk-test") ["llamaindex_redis.py", "index"]
      (StdinData.invalid "Expecting value: line 1 column 1 (char 0)") =
    Except.error "Expecting value: line 1 column 1 (char 0)" := by
  rfl

/-- Claim C2 (amended): with the API key present, the facade operations
themselves never let an exception escape — any error in the `try:`
body of `index_documents` or `search` is caught and converted to
`False` (state unchanged) or to an empty list — and `main` completes
without an escaping exception, provided that when the command is
`index` the standard input holds well-formed JSON; that JSON parse
alone sits outside the operation boundary and escapes on malformed
input. -/
theorem C2_failures_caught_amended (env : ExternalEnv) (openai_key : Option String)
    (argv : List String) (stdin : StdinData)
    (hkey : keyFalsy openai_key = false)
    (hstdin : argv.getD 1 "" = "index" → ∃ items, stdin = StdinData.parsed items) :
    (∃ out, main env openai_key argv stdin = Except.ok out) ∧
    (∀ st documents e, index_documents_try env st documents = Except.error e →
      index_documents env st documents = (false, st)) ∧
    (∀ st query top_k e, search_try env st query top_k = Except.error e →
      search env st query top_k = []) := by
  refine ⟨?_, fun st documents e he => by simp [index_documents, he],
          fun st query top_k e he => by simp [search, he]⟩
  unfold main
  by_cases hlen : argv.length < 2
  · rw [if_pos hlen]; exact ⟨_, rfl⟩
  · rw [if_neg hlen]
    have hinit : init openai_key "redis://localhost:6379" "rfp_context" =
        Except.ok ⟨"redis://localhost:6379", "rfp_context", none, none⟩ := by
      unfold init
      rw [if_neg (by simp [hkey])]
    simp only [hinit]
    by_cases h1 : argv.getD 1 "" = "connect"
    · rw [if_pos h1]; exact ⟨_, rfl⟩
    · rw [if_neg h1]
      by_cases h2 : argv.getD 1 "" = "index"
      · rw [if_pos h2]
        rcases hstdin h2 with ⟨items, hit⟩
        rw [hit]
        exact ⟨_, rfl⟩
      · rw [if_neg h2]
        by_cases h3 : argv.getD 1 "" = "search"
        · rw [if_pos h3]
          by_cases h4 : argv.length < 3
          · rw [if_pos h4]; exact ⟨_, rfl⟩
          · rw [if_neg h4]; exact ⟨_, rfl⟩
        · rw [if_neg h3]
          by_cases h5 : argv.getD 1 "" = "stats"
          · rw [if_pos h5]; exact ⟨_, rfl⟩
          · rw [if_neg h5]; exact ⟨_, rfl⟩

/-- Witness for the amended C2: a `search` invocation under the
always-failing environment still completes with a JSON output. -/
theorem C2_failures_caught_amended_witness :
    ∃ out, main envFail (some "sk-test") ["llamaindex_redis.py", "search", "q"]
      (StdinData.parsed []) = Except.ok out :=
  (C2_failures_caught_amended envFail (some "sk-test")
    ["llamaindex_redis.py", "search", "q"] (StdinData.parsed []) rfl
    (fun _ => ⟨[], rfl⟩)).1

end AutoRFP
